import Mathlib

/-!
Verification development for the Moho recursive attestation engine.

Shallow embedding of the data model and operations of the repository:
  - crates/recursive-proof/src/transition.rs  (Transition, chain, MohoTransitionWithProof)
  - crates/recursive-proof/src/errors.rs      (MohoError, TransitionChainError, InvalidProofError)
  - crates/recursive-proof/src/statements.rs  (verify_and_chain_transition, compute_root_no_prefix,
                                               process_recursive_moho_proof)
  - crates/types/src/state.rs                 (MohoState, ExportState, add_entry)
  - crates/types/src/ssz_merkle_utils.rs      (SszFieldMerkle, SszLeafInclusionProof)
  - crates/types/src/constants.rs             (MAX_PREDICATE_SIZE, MAX_EXPORT_ENTRIES)

Bytes are modelled as natural numbers, byte strings as lists.  The SHA-256
compression of two 32-byte nodes (`sha256(left || right)`, used by every Merkle
routine in the source) is abstracted as an explicit parameter
`H : Hash32 → Hash32 → Hash32`; the SSZ tree-hash roots of individual fields
(computed by the external `tree_hash` machinery) are likewise abstract
parameters.  The predicate capability `verify_claim_witness` lives in the
external `strata_predicate` crate and is abstracted as a boolean-valued
parameter `vcw`.
-/

/-- A byte string (each element is one byte value). -/
abbrev Bytes := List Nat

/-- A 32-byte value: state references, commitments, hashes and Merkle nodes. -/
abbrev Hash32 := List Nat

/-- The all-zero 32-byte chunk used as padding leaf and missing sibling. -/
def zero32 : Hash32 := List.replicate 32 0

/-- `relation.rs`: a state reference paired with the outer-state commitment
that held at it. -/
structure StateRefAttestation where
  reference : Hash32
  commitment : Hash32
deriving DecidableEq

/-- `transition.rs`: a state transition between two states of the same type. -/
structure Transition (T : Type) where
  from_state : T
  to_state : T
deriving DecidableEq

/-- `errors.rs`: error for two transitions that cannot be chained; carries the
end state of the first and the start state of the second. -/
structure TransitionChainError (T : Type) where
  first_end_state : T
  second_start_state : T
deriving DecidableEq

/-- `transition.rs` `Transition::chain`: merge two adjoining transitions. -/
def Transition.chain {T : Type} [DecidableEq T] (self next : Transition T) :
    Except (TransitionChainError T) (Transition T) :=
  if self.to_state = next.from_state then
    .ok { from_state := self.from_state, to_state := next.to_state }
  else
    .error { first_end_state := self.to_state, second_start_state := next.from_state }

/-- `transition.rs`: `MohoStateTransition = Transition<StateRefAttestation>`. -/
abbrev MohoStateTransition := Transition StateRefAttestation

/-- `errors.rs` `InvalidProofError`: wraps the transition whose proof failed. -/
structure InvalidProofError where
  transition : MohoStateTransition
deriving DecidableEq

/-- `errors.rs` `MohoError`: the full error enumeration of the recursion driver. -/
inductive MohoError where
  | invalidMohoChain (e : TransitionChainError StateRefAttestation)
  | invalidIncrementalProof (e : InvalidProofError)
  | invalidRecursiveProof (e : InvalidProofError)
  | invalidMerkleProof
deriving DecidableEq

/-- The four kinds of `MohoError`, used to speak about the error surface. -/
inductive MohoErrorKind where
  | invalidMohoChain
  | invalidIncrementalProof
  | invalidRecursiveProof
  | invalidMerkleProof
deriving DecidableEq

/-- Kind of a `MohoError` value. -/
def mohoErrorKind : MohoError → MohoErrorKind
  | .invalidMohoChain _ => .invalidMohoChain
  | .invalidIncrementalProof _ => .invalidIncrementalProof
  | .invalidRecursiveProof _ => .invalidRecursiveProof
  | .invalidMerkleProof => .invalidMerkleProof

/-- Modelled from the spec: the predicate key (`strata_predicate`, not under
src/) is a tagged value with a one-byte kind and a condition byte string. -/
structure PredicateKey where
  kind : Nat
  condition : Bytes
deriving DecidableEq

/-- `transition.rs` `MohoTransitionWithProof`: a transition plus witness bytes. -/
structure MohoTransitionWithProof where
  transition : MohoStateTransition
  proof : Bytes
deriving DecidableEq

/-- `strata_merkle::MerkleProofB32` as consumed by `statements.rs`: a bottom-up
list of sibling hashes together with the leaf index (used as a bit flag word). -/
structure MerkleProofB32 where
  cohashes : List Hash32
  index : Nat
deriving DecidableEq

/-- `ssz_merkle_utils.rs` `SszLeafInclusionProof`: bottom-up sibling branch and
0-based leaf index (a `u8` in the source). -/
structure SszLeafInclusionProof where
  branch : List Hash32
  leaf_index : Nat
deriving DecidableEq

/-- Four little-endian bytes of a 32-bit count (spec codec: fixed-width
integers little-endian, 4-byte counts). -/
def u32le (n : Nat) : Bytes :=
  [n % 256, n / 256 % 256, n / 65536 % 256, n / 16777216 % 256]

/-- Modelled from the spec: canonical encoding of a `StateRefAttestation`
(two fixed 32-byte arrays inline, in field order); the derived `ssz` codec is
not under src/. -/
def encodeAttestation (a : StateRefAttestation) : Bytes :=
  a.reference ++ a.commitment

/-- Modelled from the spec: canonical encoding of a transition, the two
fixed-size attestations inline in field order. -/
def encodeTransition (t : MohoStateTransition) : Bytes :=
  encodeAttestation t.from_state ++ encodeAttestation t.to_state

/-- Modelled from the spec: canonical encoding of the whole
`MohoTransitionWithProof` wrapper: the fixed-size transition inline followed by
the variable-size proof bytes as a 4-byte-count-prefixed buffer.  This is what
`ssz_encode(&self)` in `MohoTransitionWithProof::verify` produces; it always
differs from `encodeTransition` of the transition alone (it is strictly
longer). -/
def encodeTransitionWithProof (tw : MohoTransitionWithProof) : Bytes :=
  encodeTransition tw.transition ++ u32le tw.proof.length ++ tw.proof

/-- Modelled from the spec: canonical encoding of a predicate key, kind byte
then count-prefixed condition bytes. -/
def encodePredicateKey (p : PredicateKey) : Bytes :=
  p.kind :: (u32le p.condition.length ++ p.condition)

/-- `transition.rs` `MohoTransitionWithProof::verify`: builds the public values
as the canonical encoding of `self` (the WHOLE wrapper, `ssz_encode(&self)`)
and runs the predicate capability on them against the stored proof bytes.
`vcw` abstracts `PredicateKey::verify_claim_witness` (external crate). -/
def MohoTransitionWithProof.verify (vcw : PredicateKey → Bytes → Bytes → Bool)
    (tw : MohoTransitionWithProof) (verifier : PredicateKey) :
    Except InvalidProofError Unit :=
  let public_values := encodeTransitionWithProof tw
  if vcw verifier public_values tw.proof then .ok ()
  else .error { transition := tw.transition }

/-- Follows the spec's words (not the source): `TW::verify(tw, pred)` is
equivalent to `pred.verify(encode(tw.t), tw.witness)` where the claim is the
canonical encoding of the transition `tw.t` alone.  Kept for comparison with
`MohoTransitionWithProof.verify`, which encodes the whole wrapper. -/
def MohoTransitionWithProof.verify_spec (vcw : PredicateKey → Bytes → Bytes → Bool)
    (tw : MohoTransitionWithProof) (verifier : PredicateKey) :
    Except InvalidProofError Unit :=
  if vcw verifier (encodeTransition tw.transition) tw.proof then .ok ()
  else .error { transition := tw.transition }

/-- `program.rs` `MohoRecursiveInput`. -/
structure MohoRecursiveInput where
  moho_predicate : PredicateKey
  prev_recursive_proof : Option MohoTransitionWithProof
  incremental_step_proof : MohoTransitionWithProof
  step_predicate : PredicateKey
  step_predicate_merkle_proof : MerkleProofB32
deriving DecidableEq

/-- `program.rs` `MohoRecursiveOutput` (declaration field order: transition,
then moho_predicate). -/
structure MohoRecursiveOutput where
  transition : MohoStateTransition
  moho_predicate : PredicateKey
deriving DecidableEq

/-- Modelled from the spec: canonical encoding of the committed output. -/
def encodeOutput (o : MohoRecursiveOutput) : Bytes :=
  encodeTransition o.transition ++ encodePredicateKey o.moho_predicate

/-- Loop body of `compute_root_no_prefix` in `statements.rs`: fold the cohashes
bottom-up, the low bit of the flag word choosing the side of the running hash. -/
def crnpGo (H : Hash32 → Hash32 → Hash32) :
    List Hash32 → Hash32 → Nat → Hash32
  | [], cur, _ => cur
  | co :: rest, cur, flags =>
      crnpGo H rest (if flags % 2 = 1 then H co cur else H cur co) (flags / 2)

/-- `statements.rs` `compute_root_no_prefix`: reconstruct a Merkle root from a
leaf and a `MerkleProofB32`, with no domain-separation prefix. -/
def compute_root_no_prefix (H : Hash32 → Hash32 → Hash32)
    (proof : MerkleProofB32) (leaf : Hash32) : Hash32 :=
  crnpGo H proof.cohashes leaf proof.index

/-- `statements.rs` `verify_and_chain_transition`, with the external
capabilities abstracted: `H` is the SHA-256 node combiner, `predRoot` is the
SSZ tree-hash root of a predicate key (`tree_hash_root(&input.step_predicate)`),
and `vcw` is `PredicateKey::verify_claim_witness`. -/
def verify_and_chain_transition (H : Hash32 → Hash32 → Hash32)
    (predRoot : PredicateKey → Hash32) (vcw : PredicateKey → Bytes → Bytes → Bool)
    (input : MohoRecursiveInput) : Except MohoError MohoStateTransition :=
  let next_predicate_hash := predRoot input.step_predicate
  let expected_root := input.incremental_step_proof.transition.from_state.commitment
  let computed_root := compute_root_no_prefix H input.step_predicate_merkle_proof
    next_predicate_hash
  if computed_root ≠ expected_root then
    .error .invalidMerkleProof
  else
    match MohoTransitionWithProof.verify vcw input.incremental_step_proof
        input.step_predicate with
    | .error e => .error (.invalidIncrementalProof e)
    | .ok _ =>
      let step_t := input.incremental_step_proof.transition
      match input.prev_recursive_proof with
      | none => .ok step_t
      | some prev_proof =>
        match MohoTransitionWithProof.verify vcw prev_proof input.moho_predicate with
        | .error e => .error (.invalidRecursiveProof e)
        | .ok _ =>
          match prev_proof.transition.chain step_t with
          | .ok t => .ok t
          | .error e => .error (.invalidMohoChain e)

/-- Observable outcome of one zkVM invocation of the driver entry point. -/
inductive ZkOutcome where
  | committed (bytes : Bytes)
  | panicked
deriving DecidableEq

/-- `statements.rs` `process_recursive_moho_proof`: the zkVM entry point.  The
host bytes are read and decoded by the external derived SSZ decoder; `decoded`
is the result of that decode (`none` for host bytes that are not a valid
encoding of the input).  The source calls `.unwrap()` on both the decode and
the verification result, so either failure is a panic, not a committed error. -/
def process_recursive_moho_proof (H : Hash32 → Hash32 → Hash32)
    (predRoot : PredicateKey → Hash32) (vcw : PredicateKey → Bytes → Bytes → Bool)
    (decoded : Option MohoRecursiveInput) : ZkOutcome :=
  match decoded with
  | none => .panicked
  | some input =>
    match verify_and_chain_transition H predRoot vcw input with
    | .error _ => .panicked
    | .ok t =>
        .committed (encodeOutput { transition := t, moho_predicate := input.moho_predicate })

/-- `constants.rs` `MAX_EXPORT_ENTRIES`. -/
def MAX_EXPORT_ENTRIES : Nat := 4096

/-- `constants.rs` `MAX_PREDICATE_SIZE`. -/
def MAX_PREDICATE_SIZE : Nat := 256

/-- `state.rs` `ExportEntry`. -/
structure ExportEntry where
  entry_id : Nat
  payload : Bytes
deriving DecidableEq

/-- `state.rs` `ExportContainer`. -/
structure ExportContainer where
  container_id : Nat
  common_payload : Bytes
  entries : List ExportEntry
deriving DecidableEq

/-- `state.rs` `ExportState`. -/
structure ExportState where
  containers : List ExportContainer
deriving DecidableEq

/-- Helper for `ExportState::add_entry`: mutate the FIRST container with the
given id by pushing the entry onto its entry list (the `VariableList` push
fails past the `MAX_EXPORT_ENTRIES` bound and the source unwraps it with
`expect`, modelled as `none`).  When no container matches, the list is
returned unchanged — the source's `if let Some(..) = find(..)` has no else
branch. -/
def addEntryFirst (cid : Nat) (e : ExportEntry) :
    List ExportContainer → Option (List ExportContainer)
  | [] => some []
  | c :: rest =>
    if c.container_id = cid then
      if c.entries.length < MAX_EXPORT_ENTRIES then
        some ({ c with entries := c.entries ++ [e] } :: rest)
      else
        none
    else
      (addEntryFirst cid e rest).map (c :: ·)

/-- `state.rs` `ExportState::add_entry`. -/
def ExportState.add_entry (s : ExportState) (cid : Nat) (e : ExportEntry) :
    Option ExportState :=
  (addEntryFirst cid e s.containers).map ExportState.mk

/-- Whether some container with the given id exists. -/
def ExportState.hasContainer (s : ExportState) (cid : Nat) : Bool :=
  s.containers.any (fun c => c.container_id == cid)

/-- Whether the entry is present in some container with the given id. -/
def ExportState.entryPresent (s : ExportState) (cid : Nat) (e : ExportEntry) : Bool :=
  s.containers.any (fun c => c.container_id == cid && c.entries.contains e)

/-- `state.rs` `MohoState` (SSZ-generated container: 32-byte inner state
commitment, predicate bytes bounded by `MAX_PREDICATE_SIZE`, export state). -/
structure MohoState where
  inner_state : Hash32
  next_predicate : Bytes
  export_state : ExportState
deriving DecidableEq

/-- Modelled from the spec: the canonical predicate-key byte encoding
(`as_buf_ref().to_bytes()` of the external `strata_predicate` crate): the kind
tag followed by the condition bytes. -/
def predicateToBytes (p : PredicateKey) : Bytes :=
  p.kind :: p.condition

/-- `state.rs` `MohoState::new`.  The function is total: it returns `Self`, not
a `Result`.  The conversion `VariableList::<u8, MAX_PREDICATE_SIZE>::from`
(external `ssz_types` crate) truncates its input to the type-level bound
rather than failing. -/
def MohoState.new (inner_state : Hash32) (next_predicate : PredicateKey)
    (export_state : ExportState) : MohoState :=
  { inner_state := inner_state
    next_predicate := (predicateToBytes next_predicate).take MAX_PREDICATE_SIZE
    export_state := export_state }

/-- The three per-field SSZ roots of a `MohoState`, in container field order.
The individual field tree-hashes are external `tree_hash` machinery, abstracted
as `rootInner`, `rootPred`, `rootExport`. -/
def MohoState.field_roots (rootInner : Hash32 → Hash32) (rootPred : Bytes → Hash32)
    (rootExport : ExportState → Hash32) (s : MohoState) : List Hash32 :=
  [rootInner s.inner_state, rootPred s.next_predicate, rootExport s.export_state]

/-- Modelled from the spec: `MohoState::compute_commitment` calls the SSZ
tree-hash root of the container, whose generated implementation is produced by
build.rs at build time and is not under src/.  Per the spec the canonical hash
is the field-merkleized binary tree over the three field roots in order, padded
with the zero chunk to four leaves: `H(H(l0, l1), H(l2, 0))`. -/
def MohoState.compute_commitment (H : Hash32 → Hash32 → Hash32)
    (rootInner : Hash32 → Hash32) (rootPred : Bytes → Hash32)
    (rootExport : ExportState → Hash32) (s : MohoState) : Hash32 :=
  H (H (rootInner s.inner_state) (rootPred s.next_predicate))
    (H (rootExport s.export_state) zero32)

/-- Loop body of `SszFieldMerkle::verify_proof`: fold the branch bottom-up,
hashing on the side selected by the parity of the running index. -/
def sszVerifyGo (H : Hash32 → Hash32 → Hash32) :
    List Hash32 → Hash32 → Nat → Hash32
  | [], cur, _ => cur
  | sib :: rest, cur, idx =>
      sszVerifyGo H rest (if idx % 2 = 0 then H cur sib else H sib cur) (idx / 2)

/-- `ssz_merkle_utils.rs` `SszFieldMerkle::verify_proof`. -/
def SszFieldMerkle.verify_proof (H : Hash32 → Hash32 → Hash32) (root : Hash32)
    (proof : SszLeafInclusionProof) (leaf_value : Hash32) : Bool :=
  decide (sszVerifyGo H proof.branch leaf_value proof.leaf_index = root)

/-- Rust `usize::next_power_of_two`, computed by doubling an accumulator; the
fuel argument bounds the number of doublings (the initial value `n` is always
enough since `2 ^ n ≥ n`). -/
def nextPow2Go : Nat → Nat → Nat → Nat
  | 0, _, acc => acc
  | fuel + 1, target, acc =>
      if target ≤ acc then acc else nextPow2Go fuel target (2 * acc)

/-- Smallest power of two that is at least `n` (and `1` for `n = 0`). -/
def nextPow2 (n : Nat) : Nat := nextPow2Go n n 1

/-- Padding of the leaf layer to the next power of two with zero chunks
(`current_level.resize(next_pow2, [0u8; 32])`; the resize only ever grows). -/
def padToPow2 (leaves : List Hash32) : List Hash32 :=
  leaves ++ List.replicate (nextPow2 leaves.length - leaves.length) zero32

/-- One level-up step of `build_branch`: pair adjacent nodes, a missing right
sibling being the zero chunk (`get(i + 1).copied().unwrap_or([0u8; 32])`). -/
def pairUp (H : Hash32 → Hash32 → Hash32) : List Hash32 → List Hash32
  | [] => []
  | [l] => [H l zero32]
  | l :: r :: rest => H l r :: pairUp H rest

/-- Pairing a level halves its length, rounding up. -/
theorem pairUp_length (H : Hash32 → Hash32 → Hash32) :
    ∀ l : List Hash32, (pairUp H l).length = (l.length + 1) / 2
  | [] => by simp [pairUp]
  | [_] => by simp [pairUp]
  | _ :: _ :: rest => by
      simp only [pairUp, List.length_cons, pairUp_length H rest]
      omega

/-- The `while current_level.len() > 1` loop of `SszFieldMerkle::build_branch`:
push the sibling (or zero chunk when out of range) and move one level up; each
pass halves the level length, which gives termination. -/
def buildBranchGo (H : Hash32 → Hash32 → Hash32) (level : List Hash32)
    (idx : Nat) : List Hash32 :=
  if level.length ≤ 1 then []
  else
    let sibIdx := if idx % 2 = 0 then idx + 1 else idx - 1
    let sib := level.getD sibIdx zero32
    sib :: buildBranchGo H (pairUp H level) (idx / 2)
termination_by level.length
decreasing_by
  simp only [pairUp_length]
  omega

/-- `ssz_merkle_utils.rs` `SszFieldMerkle::build_branch`. -/
def buildBranch (H : Hash32 → Hash32 → Hash32) (leaves : List Hash32)
    (leaf_index : Nat) : List Hash32 :=
  buildBranchGo H (padToPow2 leaves) leaf_index

/-- `ssz_merkle_utils.rs` `SszFieldMerkle::generate_proof`. -/
def SszFieldMerkle.generate_proof (H : Hash32 → Hash32 → Hash32)
    (leaves : List Hash32) (leaf_index : Nat) : SszLeafInclusionProof :=
  { branch := buildBranch H leaves leaf_index, leaf_index := leaf_index }

/-! ## Shared helper lemmas and concrete values -/

/-- Endpoints of a successful chain. -/
theorem chain_ok_endpoints {T : Type} [DecidableEq T] (t1 t2 t : Transition T)
    (h : t1.chain t2 = .ok t) :
    t.from_state = t1.from_state ∧ t.to_state = t2.to_state := by
  unfold Transition.chain at h
  split at h
  · injection h with h1
    subst h1
    exact ⟨rfl, rfl⟩
  · exact Except.noConfusion h

/-- A predicate capability that accepts everything (spec: the `always_accept`
predicate kind). -/
def alwaysTrueVcw : PredicateKey → Bytes → Bytes → Bool := fun _ _ _ => true

/-- A predicate capability that accepts exactly the claims equal to the witness
bytes: the discipline of the repository's own tests, which sign
`ssz_encode(transition)` and expect that signature to verify. -/
def honestVcw : PredicateKey → Bytes → Bytes → Bool := fun _ claim wit => claim == wit

/-- Toy node combiner standing in for SHA-256 in concrete evaluations. -/
def toyH : Hash32 → Hash32 → Hash32 := fun l r => 9 :: (l ++ r)

/-- Constant node combiner for concrete evaluations that never hash. -/
def constH : Hash32 → Hash32 → Hash32 := fun _ _ => [0]

/-- Constant predicate tree-hash for concrete evaluations. -/
def constRoot : PredicateKey → Hash32 := fun _ => [9]

def pkMoho : PredicateKey := { kind := 0, condition := [] }

def pkStep : PredicateKey := { kind := 1, condition := [] }

def attA : StateRefAttestation := { reference := [1], commitment := [10] }

def attB : StateRefAttestation := { reference := [2], commitment := [20] }

def attC : StateRefAttestation := { reference := [3], commitment := [30] }

def attD : StateRefAttestation := { reference := [4], commitment := [40] }

def tAB : MohoStateTransition := { from_state := attA, to_state := attB }

def tBC : MohoStateTransition := { from_state := attB, to_state := attC }

def tCD : MohoStateTransition := { from_state := attC, to_state := attD }

/-! ## Claim C6 -/

/-- Claim C6: for every pair of transitions, `chain(T1, T2)` succeeds exactly
when `T1.to = T2.from`, in which case the result is `{from := T1.from,
to := T2.to}`; on failure the chain error carries exactly the two mismatching
endpoints `T1.to` and `T2.from`. -/
theorem C6_chain_iff (t1 t2 : MohoStateTransition) :
    (t1.to_state = t2.from_state →
      t1.chain t2 = .ok { from_state := t1.from_state, to_state := t2.to_state }) ∧
    (t1.to_state ≠ t2.from_state →
      t1.chain t2 = .error { first_end_state := t1.to_state,
                             second_start_state := t2.from_state }) := by
  unfold Transition.chain
  constructor
  · intro h
    simp [h]
  · intro h
    simp [h]

/-- Witness for C6 at concrete transitions: a matching pair chains to the
composite, a mismatching pair fails with the two endpoints. -/
theorem C6_chain_iff_witness :
    tAB.chain tBC = .ok { from_state := attA, to_state := attC } ∧
    tAB.chain tCD = .error { first_end_state := attB, second_start_state := attC } :=
  ⟨(C6_chain_iff tAB tBC).1 rfl, (C6_chain_iff tAB tCD).2 (by decide)⟩

/-! ## Claim C8 -/

/-- Claim C8: for pairwise-chainable transitions both chain orders succeed and
`chain(chain(T1,T2),T3) = chain(T1,chain(T2,T3))`. -/
theorem C8_chain_assoc (t1 t2 t3 : MohoStateTransition)
    (h1 : t1.to_state = t2.from_state) (h2 : t2.to_state = t3.from_state) :
    t1.chain t2 = .ok { from_state := t1.from_state, to_state := t2.to_state } ∧
    t2.chain t3 = .ok { from_state := t2.from_state, to_state := t3.to_state } ∧
    ({ from_state := t1.from_state, to_state := t2.to_state } : MohoStateTransition).chain t3 =
      .ok { from_state := t1.from_state, to_state := t3.to_state } ∧
    t1.chain { from_state := t2.from_state, to_state := t3.to_state } =
      .ok { from_state := t1.from_state, to_state := t3.to_state } := by
  refine ⟨?_, ?_, ?_, ?_⟩ <;> simp [Transition.chain, h1, h2]

/-- Witness for C8 at concrete pairwise-chainable transitions. -/
theorem C8_chain_assoc_witness :
    tAB.chain tBC = .ok { from_state := tAB.from_state, to_state := tBC.to_state } ∧
    tBC.chain tCD = .ok { from_state := tBC.from_state, to_state := tCD.to_state } ∧
    ({ from_state := tAB.from_state, to_state := tBC.to_state } : MohoStateTransition).chain tCD =
      .ok { from_state := tAB.from_state, to_state := tCD.to_state } ∧
    tAB.chain { from_state := tBC.from_state, to_state := tCD.to_state } =
      .ok { from_state := tAB.from_state, to_state := tCD.to_state } :=
  C8_chain_assoc tAB tBC tCD rfl rfl

/-! ## Claim C10 -/

/-- Claim C10: verifying an inclusion proof with an empty sibling branch
returns true exactly when the leaf equals the root, for every leaf index; no
minimum branch length is enforced.  The same holds for the driver's
`compute_root_no_prefix`, which returns the leaf unchanged on an empty branch. -/
theorem C10_empty_branch (H : Hash32 → Hash32 → Hash32) (root leaf : Hash32) (idx : Nat) :
    SszFieldMerkle.verify_proof H root { branch := [], leaf_index := idx } leaf =
      decide (leaf = root) ∧
    compute_root_no_prefix H { cohashes := [], index := idx } leaf = leaf :=
  ⟨rfl, rfl⟩

/-! ## Claim C1 -/

/-- Claim C1: whenever `verify_and_chain_transition` succeeds, the returned
transition starts at the previous recursive transition's from-attestation and
ends at the incremental step transition's to-attestation when a previous
recursive proof is present, and is the incremental step transition unchanged
when it is absent. -/
theorem C1_endpoint_preservation (H : Hash32 → Hash32 → Hash32)
    (predRoot : PredicateKey → Hash32) (vcw : PredicateKey → Bytes → Bytes → Bool)
    (input : MohoRecursiveInput) (t : MohoStateTransition)
    (h : verify_and_chain_transition H predRoot vcw input = .ok t) :
    match input.prev_recursive_proof with
    | some p => t.from_state = p.transition.from_state ∧
        t.to_state = input.incremental_step_proof.transition.to_state
    | none => t = input.incremental_step_proof.transition := by
  cases hprev : input.prev_recursive_proof with
  | none =>
      simp only [verify_and_chain_transition, hprev] at h
      split at h
      · exact Except.noConfusion h
      · split at h
        · exact Except.noConfusion h
        · injection h with h1
          exact h1.symm
  | some prev_proof =>
      simp only [verify_and_chain_transition, hprev] at h
      split at h
      · exact Except.noConfusion h
      · split at h
        · exact Except.noConfusion h
        · split at h
          · exact Except.noConfusion h
          · split at h
            · rename_i t1 hchain
              injection h with h1
              subst h1
              exact chain_ok_endpoints _ _ _ hchain
            · exact Except.noConfusion h

def attP1 : StateRefAttestation := { reference := [1], commitment := [5] }

def attE9 : StateRefAttestation := { reference := [2], commitment := [9] }

def attQ3 : StateRefAttestation := { reference := [3], commitment := [6] }

def prevT : MohoStateTransition := { from_state := attP1, to_state := attE9 }

def stepT : MohoStateTransition := { from_state := attE9, to_state := attQ3 }

def c1Input : MohoRecursiveInput :=
  { moho_predicate := pkMoho
    prev_recursive_proof := some { transition := prevT, proof := [] }
    incremental_step_proof := { transition := stepT, proof := [] }
    step_predicate := pkStep
    step_predicate_merkle_proof := { cohashes := [], index := 1 } }

/-- Witness for C1: a concrete fully-successful input with a previous recursive
proof; the driver returns the chained transition with the claimed endpoints. -/
theorem C1_endpoint_preservation_witness :
    ({ from_state := attP1, to_state := attQ3 } : MohoStateTransition).from_state =
      prevT.from_state ∧
    ({ from_state := attP1, to_state := attQ3 } : MohoStateTransition).to_state =
      c1Input.incremental_step_proof.transition.to_state :=
  C1_endpoint_preservation constH constRoot alwaysTrueVcw c1Input
    { from_state := attP1, to_state := attQ3 } (by rfl)

/-! ## Claim C2 -/

/-- The honestly signed step of the repository's own tests
(`statements.rs::sign_transition` signs `ssz_encode(transition)`): the witness
bytes are a valid signature over the canonical encoding of the transition
alone; the abstract checker `honestVcw` accepts exactly such pairs. -/
def tw2 : MohoTransitionWithProof := { transition := tAB, proof := encodeTransition tAB }

/-- Claim C2: evaluation at the failing input.  The source's
`MohoTransitionWithProof::verify` passes `ssz_encode(&self)` — the encoding of
the WHOLE wrapper, transition plus count plus witness bytes — as the claim, so
the honestly signed step of the repository's own tests is rejected; the spec's
verification (claim = encoding of the transition alone) accepts it. -/
theorem C2_claim_encoding_divergence :
    MohoTransitionWithProof.verify honestVcw tw2 pkStep = .error { transition := tAB } ∧
    MohoTransitionWithProof.verify_spec honestVcw tw2 pkStep = .ok () :=
  ⟨rfl, rfl⟩

/-! ## Claim C3 -/

/-- Predicate tree-hash used in the C3 evaluation. -/
def predRoot3 : PredicateKey → Hash32 := fun _ => [7]

def attFrom3 : StateRefAttestation := { reference := [2], commitment := [9, 9, 1, 7, 2] }

def attTo3 : StateRefAttestation := { reference := [3], commitment := [4] }

def stepT3 : MohoStateTransition := { from_state := attFrom3, to_state := attTo3 }

/-- An input whose predicate inclusion proof carries leaf index 5 (not 1) with
a two-level branch: `compute_root_no_prefix` only consults the low bit of the
flag word at each level, so index 5 folds exactly like index 1 and the proof
reconstructs the prior commitment. -/
def c3Input : MohoRecursiveInput :=
  { moho_predicate := pkMoho
    prev_recursive_proof := none
    incremental_step_proof := { transition := stepT3, proof := [] }
    step_predicate := pkStep
    step_predicate_merkle_proof := { cohashes := [[1], [2]], index := 5 } }

/-- Claim C3 counterexample: a concrete input whose inclusion proof carries
leaf index 5 — not 1 — yet `verify_and_chain_transition` succeeds, because the
code never constrains the index beyond using its low bits to fold the branch. -/
theorem C3_counterexample :
    verify_and_chain_transition toyH predRoot3 alwaysTrueVcw c3Input = .ok stepT3 ∧
    c3Input.step_predicate_merkle_proof.index ≠ 1 :=
  ⟨rfl, by decide⟩

/-- Claim C3 amended: acceptance implies only that the branch and index
together reconstruct the prior state commitment from the predicate's leaf
hash; no constraint that the index equal 1 is enforced. -/
theorem C3_acceptance_reconstructs (H : Hash32 → Hash32 → Hash32)
    (predRoot : PredicateKey → Hash32) (vcw : PredicateKey → Bytes → Bytes → Bool)
    (input : MohoRecursiveInput) (t : MohoStateTransition)
    (h : verify_and_chain_transition H predRoot vcw input = .ok t) :
    compute_root_no_prefix H input.step_predicate_merkle_proof
      (predRoot input.step_predicate) =
      input.incremental_step_proof.transition.from_state.commitment := by
  simp only [verify_and_chain_transition] at h
  split at h
  · exact Except.noConfusion h
  · rename_i hcond
    exact not_ne_iff.mp hcond

/-- Witness for the amended C3 at the concrete index-5 input. -/
theorem C3_acceptance_reconstructs_witness :
    compute_root_no_prefix toyH c3Input.step_predicate_merkle_proof
      (predRoot3 c3Input.step_predicate) =
      c3Input.incremental_step_proof.transition.from_state.commitment :=
  C3_acceptance_reconstructs toyH predRoot3 alwaysTrueVcw c3Input stepT3 (by rfl)

/-! ## Claim C5 -/

/-- Claim C5 counterexample: host bytes that are not a valid encoding of the
input (decode result `none`) make the zkVM entry point panic (the source calls
`.unwrap()` on the decode); no `decode_error` variant is reported — indeed
`MohoError` has no such constructor. -/
theorem C5_counterexample :
    process_recursive_moho_proof constH constRoot alwaysTrueVcw none = ZkOutcome.panicked :=
  rfl

/-- Claim C5 amended: the driver's error enumeration has exactly the four
variants `invalid_merkle_proof`, `invalid_incremental_proof`,
`invalid_recursive_proof` and `invalid_chain`; host-supplied bytes that fail
to decode cause a panic of the entry point, not a reported error variant. -/
theorem C5_error_surface (H : Hash32 → Hash32 → Hash32)
    (predRoot : PredicateKey → Hash32) (vcw : PredicateKey → Bytes → Bytes → Bool) :
    process_recursive_moho_proof H predRoot vcw none = ZkOutcome.panicked ∧
    ∀ input e, verify_and_chain_transition H predRoot vcw input = .error e →
      mohoErrorKind e = .invalidMerkleProof ∨ mohoErrorKind e = .invalidIncrementalProof ∨
      mohoErrorKind e = .invalidRecursiveProof ∨ mohoErrorKind e = .invalidMohoChain := by
  refine ⟨rfl, ?_⟩
  intro input e _
  cases e <;> simp [mohoErrorKind]

def c5Input : MohoRecursiveInput :=
  { moho_predicate := pkMoho
    prev_recursive_proof := none
    incremental_step_proof :=
      { transition := { from_state := { reference := [2], commitment := [8] },
                        to_state := attTo3 }, proof := [] }
    step_predicate := pkStep
    step_predicate_merkle_proof := { cohashes := [], index := 1 } }

/-- Witness for C5 at a concrete erroring input (commitment mismatch yields
the invalid-merkle-proof kind). -/
theorem C5_error_surface_witness :
    mohoErrorKind MohoError.invalidMerkleProof = .invalidMerkleProof ∨
    mohoErrorKind MohoError.invalidMerkleProof = .invalidIncrementalProof ∨
    mohoErrorKind MohoError.invalidMerkleProof = .invalidRecursiveProof ∨
    mohoErrorKind MohoError.invalidMerkleProof = .invalidMohoChain :=
  (C5_error_surface constH constRoot alwaysTrueVcw).2 c5Input .invalidMerkleProof (by rfl)

/-! ## Claim C4 -/

def e0 : ExportEntry := { entry_id := 7, payload := [1] }

/-- Claim C4 counterexample: adding an entry to an `ExportState` holding no
container with the given id returns the state UNCHANGED — no fresh container
is created and the entry is not present afterwards. -/
theorem C4_counterexample :
    ExportState.add_entry { containers := [] } 1 e0 = some { containers := [] } ∧
    ExportState.entryPresent { containers := [] } 1 e0 = false :=
  ⟨rfl, rfl⟩

/-- When no container matches, `addEntryFirst` leaves the list unchanged. -/
theorem addEntryFirst_not_found (cid : Nat) (e : ExportEntry) :
    ∀ l : List ExportContainer, l.any (fun c => c.container_id == cid) = false →
      addEntryFirst cid e l = some l := by
  intro l
  induction l with
  | nil => intro _; rfl
  | cons c rest ih =>
      intro h
      simp only [List.any_cons, Bool.or_eq_false_iff, beq_eq_false_iff_ne] at h
      obtain ⟨h1, h2⟩ := h
      simp [addEntryFirst, h1, ih h2]

/-- When some container matches and the push succeeds, the entry lands in a
container with the requested id. -/
theorem addEntryFirst_found (cid : Nat) (e : ExportEntry) :
    ∀ l l2 : List ExportContainer, addEntryFirst cid e l = some l2 →
      l.any (fun c => c.container_id == cid) = true →
      l2.any (fun c => c.container_id == cid && c.entries.contains e) = true := by
  intro l
  induction l with
  | nil => intro l2 _ hfound; simp at hfound
  | cons c rest ih =>
      intro l2 h hfound
      by_cases hc : c.container_id = cid
      · rw [addEntryFirst, if_pos hc] at h
        split at h
        · injection h with h1
          subst h1
          simp [List.any_cons, hc]
        · exact Option.noConfusion h
      · rw [addEntryFirst, if_neg hc] at h
        obtain ⟨rest2, hrest, h2⟩ := Option.map_eq_some'.mp h
        subst h2
        have hfound2 : rest.any (fun d => d.container_id == cid) = true := by
          simpa [List.any_cons, hc] using hfound
        simp only [List.any_cons, ih rest2 hrest hfound2, Bool.or_true]

/-- Claim C4 amended: `add_entry` appends the entry to an existing container
with the given id (the entry is afterwards present there, capacity permitting);
when no container with that id exists the state is returned unchanged — no
fresh container is created and the entry is not added. -/
theorem C4_add_entry (s : ExportState) (cid : Nat) (e : ExportEntry) :
    (s.hasContainer cid = false → s.add_entry cid e = some s) ∧
    (∀ s2, s.hasContainer cid = true → s.add_entry cid e = some s2 →
      s2.entryPresent cid e = true) := by
  constructor
  · intro h
    unfold ExportState.add_entry
    rw [addEntryFirst_not_found cid e s.containers h]
    rfl
  · intro s2 hfound hadd
    unfold ExportState.add_entry at hadd
    obtain ⟨l2, hl2, h2⟩ := Option.map_eq_some'.mp hadd
    subst h2
    exact addEntryFirst_found cid e s.containers l2 hl2 hfound

def cont1 : ExportContainer := { container_id := 1, common_payload := [], entries := [] }

def s1 : ExportState := { containers := [cont1] }

/-- Witness for the amended C4 at a concrete state holding container 1: the
entry is present after adding. -/
theorem C4_add_entry_witness :
    ExportState.entryPresent
      { containers := [{ container_id := 1, common_payload := [], entries := [e0] }] }
      1 e0 = true :=
  (C4_add_entry s1 1 e0).2
    { containers := [{ container_id := 1, common_payload := [], entries := [e0] }] }
    (by rfl) (by rfl)

/-! ## Claim C9 -/

def bigPred : PredicateKey := { kind := 0, condition := List.replicate 300 1 }

def inner0 : Hash32 := List.replicate 32 3

def ex0 : ExportState := { containers := [] }

set_option maxRecDepth 4000 in
/-- Claim C9 counterexample: constructing a `MohoState` with a predicate whose
encoded bytes exceed `MAX_PREDICATE_SIZE` does NOT fail — `MohoState::new` is
total and the `VariableList` conversion silently truncates the bytes to the
bound. -/
theorem C9_counterexample :
    MohoState.new inner0 bigPred ex0 =
      { inner_state := inner0, next_predicate := 0 :: List.replicate 255 1,
        export_state := ex0 } ∧
    MAX_PREDICATE_SIZE < (predicateToBytes bigPred).length :=
  ⟨by decide, by decide⟩

/-- Claim C9 amended: construction never fails; an encoded predicate of more
than `MAX_PREDICATE_SIZE` bytes is silently truncated to the bound, and for
every predicate whose encoding is at most `MAX_PREDICATE_SIZE` bytes the
stored predicate bytes equal the input bytes. -/
theorem C9_new_within_bound (inner : Hash32) (pred : PredicateKey) (ex : ExportState)
    (h : (predicateToBytes pred).length ≤ MAX_PREDICATE_SIZE) :
    MohoState.new inner pred ex =
      { inner_state := inner, next_predicate := predicateToBytes pred,
        export_state := ex } := by
  unfold MohoState.new
  rw [List.take_of_length_le h]

/-- Witness for the amended C9 at a concrete small predicate. -/
theorem C9_new_within_bound_witness :
    MohoState.new inner0 pkStep ex0 =
      { inner_state := inner0, next_predicate := predicateToBytes pkStep,
        export_state := ex0 } :=
  C9_new_within_bound inner0 pkStep ex0 (by decide)

/-! ## Claim C7 -/

/-- Claim C7: for every `MohoState` and field index `i < 3`, the inclusion
proof generated for leaf `i` over the three field roots verifies against the
state commitment with the `i`-th field root as leaf value.  Stated for every
node combiner `H` and every triple of field tree-hash functions, since the
round-trip relies on no property of SHA-256. -/
theorem C7_field_proof_roundtrip (H : Hash32 → Hash32 → Hash32)
    (rootInner : Hash32 → Hash32) (rootPred : Bytes → Hash32)
    (rootExport : ExportState → Hash32) (s : MohoState) (i : Nat) (h : i < 3) :
    SszFieldMerkle.verify_proof H (s.compute_commitment H rootInner rootPred rootExport)
      (SszFieldMerkle.generate_proof H (s.field_roots rootInner rootPred rootExport) i)
      ((s.field_roots rootInner rootPred rootExport).getD i zero32) = true := by
  have hpad : padToPow2 [rootInner s.inner_state, rootPred s.next_predicate,
      rootExport s.export_state] =
      [rootInner s.inner_state, rootPred s.next_predicate,
       rootExport s.export_state, zero32] := rfl
  interval_cases i <;>
    simp [SszFieldMerkle.verify_proof, SszFieldMerkle.generate_proof, buildBranch, hpad,
      buildBranchGo, pairUp, sszVerifyGo, MohoState.field_roots,
      MohoState.compute_commitment]

def toyRootInner : Hash32 → Hash32 := fun x => 1 :: x

def toyRootPred : Bytes → Hash32 := fun x => 2 :: x

def toyRootExport : ExportState → Hash32 := fun _ => [3]

def s7 : MohoState := { inner_state := [5], next_predicate := [6], export_state := ex0 }

/-- Witness for C7 at a concrete state and field index 1 (the predicate leaf). -/
theorem C7_field_proof_roundtrip_witness :
    SszFieldMerkle.verify_proof toyH
      (s7.compute_commitment toyH toyRootInner toyRootPred toyRootExport)
      (SszFieldMerkle.generate_proof toyH
        (s7.field_roots toyRootInner toyRootPred toyRootExport) 1)
      ((s7.field_roots toyRootInner toyRootPred toyRootExport).getD 1 zero32) = true :=
  C7_field_proof_roundtrip toyH toyRootInner toyRootPred toyRootExport s7 1 (by decide)
